import Mathlib

/-!
Shallow embedding of `raiko-host/src/host/provider/cached_rpc_provider.rs`.

The file under verification is the caching decorator `CachedRpcProvider`,
composed of a cache (`FileProvider`) and a remote fetcher (`RpcProvider`).
Only `cached_rpc_provider.rs` is available as source; the two collaborators
(`FileProvider`, `RpcProvider`) and the query/value types from the provider
module are modelled from the spec, as marked on each definition.

Errors (Rust's `anyhow::Error`) are modelled as strings.  Each getter of the
decorator returns, besides the Rust function's result, the updated provider
state and the number of remote (RPC) fetches the call performed, so that
"exactly one remote fetch" / "zero remote fetches" claims are statable.
-/

namespace Raiko

/-- Opaque error values standing for `anyhow::Error`. -/
abbrev Err := String

/-- Modelled from the spec: a transaction, carrying its hash (the field the
source compares against `query.tx_hash`) and an opaque payload. -/
structure Transaction where
  hash : Nat
  payload : Nat
deriving DecidableEq

/-- Modelled from the spec: a full block (`Block<Transaction>`), carrying the
transaction list that `get_transaction` scans. -/
structure Block where
  transactions : List Transaction
deriving DecidableEq

/-- `BlockQuery` from the provider module: block-by-number key. -/
structure BlockQuery where
  block_no : Nat
deriving DecidableEq

/-- Modelled from the spec: account-by-address-and-block key. -/
structure AccountQuery where
  block_no : Nat
  address : Nat
deriving DecidableEq

/-- Modelled from the spec: proof-request key. -/
structure ProofQuery where
  block_no : Nat
  address : Nat
deriving DecidableEq

/-- Modelled from the spec: storage-slot-by-address-slot-block key. -/
structure StorageQuery where
  block_no : Nat
  address : Nat
  slot : Nat
deriving DecidableEq

/-- Modelled from the spec: logs-by-range-or-filter key. -/
structure LogsQuery where
  address : Nat
  from_block : Nat
  to_block : Nat
deriving DecidableEq

/-- `TxQuery` from the provider module: transaction-by-hash, optionally
scoped to a block number. -/
structure TxQuery where
  tx_hash : Nat
  block_no : Option Nat
deriving DecidableEq

/-- One table of the cache: keyed entries whose stored payload is a
`Result`-shaped value.  A freshly inserted entry stores `.ok`; an entry loaded
from a corrupted persisted file may store `.error` (the spec's "other
cache-side error"). -/
def Table (K V : Type) := List (K × Except Err V)

/-- Modelled from the spec: cache lookup, `get(query) -> Result<Value>`.
A missing key fails with "not found"; a present entry yields its stored
result (which is an error for a corrupted entry). -/
def Table.get {K V : Type} [DecidableEq K] : Table K V → K → Except Err V
  | [], _ => .error "not found"
  | (k, r) :: rest, key => if k = key then r else Table.get rest key

/-- Modelled from the spec: cache insertion, `insert(query, value)`:
records the successfully fetched value under the key (in memory only). -/
def Table.insert {K V : Type} (t : Table K V) (k : K) (v : V) : Table K V :=
  (k, Except.ok v) :: t

/-- Modelled from the spec: the `FileProvider` cache — one keyed table per
query kind, plus the configured persistence location. -/
structure FileProvider where
  file_path : String
  full_blocks : Table BlockQuery Block
  headers : Table BlockQuery Nat
  receipts : Table BlockQuery (List Nat)
  proofs : Table ProofQuery Nat
  transaction_counts : Table AccountQuery Nat
  balances : Table AccountQuery Nat
  codes : Table AccountQuery (List Nat)
  storages : Table StorageQuery Nat
  logs : Table LogsQuery (List Nat)
  transactions : Table TxQuery Transaction
  blobs : Table Nat Nat

/-- Modelled from the spec: `FileProvider::empty(cache_path)` — an empty cache
remembering the persistence location. -/
def FileProvider.empty (cache_path : String) : FileProvider :=
  ⟨cache_path, [], [], [], [], [], [], [], [], [], [], []⟩

def FileProvider.get_full_block (c : FileProvider) (q : BlockQuery) : Except Err Block :=
  c.full_blocks.get q

def FileProvider.get_partial_block (c : FileProvider) (q : BlockQuery) : Except Err Nat :=
  c.headers.get q

def FileProvider.get_block_receipts (c : FileProvider) (q : BlockQuery) : Except Err (List Nat) :=
  c.receipts.get q

def FileProvider.get_proof (c : FileProvider) (q : ProofQuery) : Except Err Nat :=
  c.proofs.get q

def FileProvider.get_transaction_count (c : FileProvider) (q : AccountQuery) : Except Err Nat :=
  c.transaction_counts.get q

def FileProvider.get_balance (c : FileProvider) (q : AccountQuery) : Except Err Nat :=
  c.balances.get q

def FileProvider.get_code (c : FileProvider) (q : AccountQuery) : Except Err (List Nat) :=
  c.codes.get q

def FileProvider.get_storage (c : FileProvider) (q : StorageQuery) : Except Err Nat :=
  c.storages.get q

def FileProvider.get_logs (c : FileProvider) (q : LogsQuery) : Except Err (List Nat) :=
  c.logs.get q

def FileProvider.get_transaction (c : FileProvider) (q : TxQuery) : Except Err Transaction :=
  c.transactions.get q

def FileProvider.get_blob_data (c : FileProvider) (block_id : Nat) : Except Err Nat :=
  c.blobs.get block_id

def FileProvider.insert_full_block (c : FileProvider) (q : BlockQuery) (v : Block) : FileProvider :=
  { c with full_blocks := c.full_blocks.insert q v }

def FileProvider.insert_partial_block (c : FileProvider) (q : BlockQuery) (v : Nat) : FileProvider :=
  { c with headers := c.headers.insert q v }

def FileProvider.insert_block_receipts (c : FileProvider) (q : BlockQuery) (v : List Nat) : FileProvider :=
  { c with receipts := c.receipts.insert q v }

def FileProvider.insert_proof (c : FileProvider) (q : ProofQuery) (v : Nat) : FileProvider :=
  { c with proofs := c.proofs.insert q v }

def FileProvider.insert_transaction_count (c : FileProvider) (q : AccountQuery) (v : Nat) : FileProvider :=
  { c with transaction_counts := c.transaction_counts.insert q v }

def FileProvider.insert_balance (c : FileProvider) (q : AccountQuery) (v : Nat) : FileProvider :=
  { c with balances := c.balances.insert q v }

def FileProvider.insert_code (c : FileProvider) (q : AccountQuery) (v : List Nat) : FileProvider :=
  { c with codes := c.codes.insert q v }

def FileProvider.insert_storage (c : FileProvider) (q : StorageQuery) (v : Nat) : FileProvider :=
  { c with storages := c.storages.insert q v }

def FileProvider.insert_logs (c : FileProvider) (q : LogsQuery) (v : List Nat) : FileProvider :=
  { c with logs := c.logs.insert q v }

def FileProvider.insert_transaction (c : FileProvider) (q : TxQuery) (v : Transaction) : FileProvider :=
  { c with transactions := c.transactions.insert q v }

def FileProvider.insert_blob (c : FileProvider) (block_id : Nat) (v : Nat) : FileProvider :=
  { c with blobs := c.blobs.insert block_id v }

/-- Modelled from the spec: the remote data source is stateless with respect
to this component, so it is one deterministic response function per query
kind. -/
structure RpcProvider where
  full_block : BlockQuery → Except Err Block
  partial_block : BlockQuery → Except Err Nat
  block_receipts : BlockQuery → Except Err (List Nat)
  proof : ProofQuery → Except Err Nat
  transaction_count : AccountQuery → Except Err Nat
  balance : AccountQuery → Except Err Nat
  code : AccountQuery → Except Err (List Nat)
  storage : StorageQuery → Except Err Nat
  log_list : LogsQuery → Except Err (List Nat)
  transaction : TxQuery → Except Err Transaction
  blob_data : Nat → Except Err Nat

/-- The composed provider (`struct CachedRpcProvider`): a cache and a remote
source. -/
structure CachedRpcProvider where
  cache : FileProvider
  rpc : RpcProvider

/-- `CachedRpcProvider::new` (lines 33–45).  `FileProvider::from_file` and
`RpcProvider::new` are outside the source file; their outcomes enter as the
`load_out` / `rpc_out` arguments.  A failed cache load falls back to the empty
cache at `cache_path`; a failed RPC construction aborts with `?`. -/
def CachedRpcProvider.new (load_out : Except Err FileProvider) (cache_path : String)
    (rpc_out : Except Err RpcProvider) : Except Err CachedRpcProvider :=
  let cache := match load_out with
    | .ok provider => provider
    | .error _ => FileProvider.empty cache_path
  match rpc_out with
  | .error e => .error e
  | .ok rpc => .ok { cache := cache, rpc := rpc }

/-- `get_full_block` (lines 53–63): return the cache result when it `is_ok`;
otherwise fetch remotely (`?` propagates a remote error), insert the fetched
value under the query, and return it.  The extra components are the updated
provider and the number of remote fetches performed. -/
def CachedRpcProvider.get_full_block (p : CachedRpcProvider) (query : BlockQuery) :
    Except Err Block × CachedRpcProvider × Nat :=
  let cache_out := p.cache.get_full_block query
  match cache_out with
  | .ok v => (.ok v, p, 0)
  | .error _ =>
      match p.rpc.full_block query with
      | .error e => (.error e, p, 1)
      | .ok out => (.ok out, { p with cache := p.cache.insert_full_block query out }, 1)

/-- `get_partial_block` (lines 65–75), same shape as `get_full_block`. -/
def CachedRpcProvider.get_partial_block (p : CachedRpcProvider) (query : BlockQuery) :
    Except Err Nat × CachedRpcProvider × Nat :=
  let cache_out := p.cache.get_partial_block query
  match cache_out with
  | .ok v => (.ok v, p, 0)
  | .error _ =>
      match p.rpc.partial_block query with
      | .error e => (.error e, p, 1)
      | .ok out => (.ok out, { p with cache := p.cache.insert_partial_block query out }, 1)

/-- `get_block_receipts` (lines 77–87). -/
def CachedRpcProvider.get_block_receipts (p : CachedRpcProvider) (query : BlockQuery) :
    Except Err (List Nat) × CachedRpcProvider × Nat :=
  let cache_out := p.cache.get_block_receipts query
  match cache_out with
  | .ok v => (.ok v, p, 0)
  | .error _ =>
      match p.rpc.block_receipts query with
      | .error e => (.error e, p, 1)
      | .ok out => (.ok out, { p with cache := p.cache.insert_block_receipts query out }, 1)

/-- `get_proof` (lines 89–99). -/
def CachedRpcProvider.get_proof (p : CachedRpcProvider) (query : ProofQuery) :
    Except Err Nat × CachedRpcProvider × Nat :=
  let cache_out := p.cache.get_proof query
  match cache_out with
  | .ok v => (.ok v, p, 0)
  | .error _ =>
      match p.rpc.proof query with
      | .error e => (.error e, p, 1)
      | .ok out => (.ok out, { p with cache := p.cache.insert_proof query out }, 1)

/-- `get_transaction_count` (lines 101–111). -/
def CachedRpcProvider.get_transaction_count (p : CachedRpcProvider) (query : AccountQuery) :
    Except Err Nat × CachedRpcProvider × Nat :=
  let cache_out := p.cache.get_transaction_count query
  match cache_out with
  | .ok v => (.ok v, p, 0)
  | .error _ =>
      match p.rpc.transaction_count query with
      | .error e => (.error e, p, 1)
      | .ok out => (.ok out, { p with cache := p.cache.insert_transaction_count query out }, 1)

/-- `get_balance` (lines 113–123). -/
def CachedRpcProvider.get_balance (p : CachedRpcProvider) (query : AccountQuery) :
    Except Err Nat × CachedRpcProvider × Nat :=
  let cache_out := p.cache.get_balance query
  match cache_out with
  | .ok v => (.ok v, p, 0)
  | .error _ =>
      match p.rpc.balance query with
      | .error e => (.error e, p, 1)
      | .ok out => (.ok out, { p with cache := p.cache.insert_balance query out }, 1)

/-- `get_code` (lines 125–135). -/
def CachedRpcProvider.get_code (p : CachedRpcProvider) (query : AccountQuery) :
    Except Err (List Nat) × CachedRpcProvider × Nat :=
  let cache_out := p.cache.get_code query
  match cache_out with
  | .ok v => (.ok v, p, 0)
  | .error _ =>
      match p.rpc.code query with
      | .error e => (.error e, p, 1)
      | .ok out => (.ok out, { p with cache := p.cache.insert_code query out }, 1)

/-- `get_storage` (lines 137–147). -/
def CachedRpcProvider.get_storage (p : CachedRpcProvider) (query : StorageQuery) :
    Except Err Nat × CachedRpcProvider × Nat :=
  let cache_out := p.cache.get_storage query
  match cache_out with
  | .ok v => (.ok v, p, 0)
  | .error _ =>
      match p.rpc.storage query with
      | .error e => (.error e, p, 1)
      | .ok out => (.ok out, { p with cache := p.cache.insert_storage query out }, 1)

/-- `get_logs` (lines 149–159). -/
def CachedRpcProvider.get_logs (p : CachedRpcProvider) (query : LogsQuery) :
    Except Err (List Nat) × CachedRpcProvider × Nat :=
  let cache_out := p.cache.get_logs query
  match cache_out with
  | .ok v => (.ok v, p, 0)
  | .error _ =>
      match p.rpc.log_list query with
      | .error e => (.error e, p, 1)
      | .ok out => (.ok out, { p with cache := p.cache.insert_logs query out }, 1)

/-- `get_blob_data` (lines 184–194). -/
def CachedRpcProvider.get_blob_data (p : CachedRpcProvider) (block_id : Nat) :
    Except Err Nat × CachedRpcProvider × Nat :=
  let cache_out := p.cache.get_blob_data block_id
  match cache_out with
  | .ok v => (.ok v, p, 0)
  | .error _ =>
      match p.rpc.blob_data block_id with
      | .error e => (.error e, p, 1)
      | .ok out => (.ok out, { p with cache := p.cache.insert_blob block_id out }, 1)

/-- The `for tx in block.transactions` loop of `get_transaction`
(lines 170–174): first transaction whose hash equals the queried hash. -/
def findTx : List Transaction → Nat → Option Transaction
  | [], _ => none
  | tx :: rest, h => if tx.hash = h then some tx else findTx rest h

/-- The shared fall-through tail of `get_transaction` (lines 178–181): direct
remote transaction fetch, insert under the transaction key on success. -/
def CachedRpcProvider.remote_transaction (p : CachedRpcProvider) (query : TxQuery) :
    Except Err Transaction × CachedRpcProvider × Nat :=
  match p.rpc.transaction query with
  | .error e => (.error e, p, 1)
  | .ok out => (.ok out, { p with cache := p.cache.insert_transaction query out }, 1)

/-- `get_transaction` (lines 161–182): direct cache lookup by transaction key;
on a miss, if a block number is given, look that block up **in the cache**
(`self.cache.get_full_block`) and scan its transactions for the queried hash;
otherwise fall through to the direct remote transaction fetch. -/
def CachedRpcProvider.get_transaction (p : CachedRpcProvider) (query : TxQuery) :
    Except Err Transaction × CachedRpcProvider × Nat :=
  let cache_out := p.cache.get_transaction query
  match cache_out with
  | .ok v => (.ok v, p, 0)
  | .error _ =>
      match query.block_no with
      | some block_no =>
          match p.cache.get_full_block { block_no := block_no } with
          | .ok block =>
              match findTx block.transactions query.tx_hash with
              | some tx => (.ok tx, p, 0)
              | none => p.remote_transaction query
          | .error _ => p.remote_transaction query
      | none => p.remote_transaction query

/-- The ten uniform query kinds of the provider surface (every getter except
`get_transaction`, whose contract is a superset).  This sum type only packages
the per-kind operations above so that claims quantifying over "every query
kind" are single statements. -/
inductive Query where
  | fullBlock (q : BlockQuery)
  | partialBlock (q : BlockQuery)
  | blockReceipts (q : BlockQuery)
  | proof (q : ProofQuery)
  | transactionCount (q : AccountQuery)
  | balance (q : AccountQuery)
  | code (q : AccountQuery)
  | storage (q : StorageQuery)
  | logs (q : LogsQuery)
  | blob (block_id : Nat)
deriving DecidableEq

/-- Result values of the ten uniform query kinds. -/
inductive Value where
  | block (b : Block)
  | header (h : Nat)
  | receiptList (r : List Nat)
  | proofResponse (r : Nat)
  | count (n : Nat)
  | amount (n : Nat)
  | bytes (b : List Nat)
  | word (w : Nat)
  | logList (l : List Nat)
  | blobs (r : Nat)
deriving DecidableEq

/-- Cache lookup for a packaged query: dispatches to the per-kind
`FileProvider` getter and injects the result into `Value`. -/
def FileProvider.lookupQ (c : FileProvider) : Query → Except Err Value
  | .fullBlock q => (c.get_full_block q).map Value.block
  | .partialBlock q => (c.get_partial_block q).map Value.header
  | .blockReceipts q => (c.get_block_receipts q).map Value.receiptList
  | .proof q => (c.get_proof q).map Value.proofResponse
  | .transactionCount q => (c.get_transaction_count q).map Value.count
  | .balance q => (c.get_balance q).map Value.amount
  | .code q => (c.get_code q).map Value.bytes
  | .storage q => (c.get_storage q).map Value.word
  | .logs q => (c.get_logs q).map Value.logList
  | .blob b => (c.get_blob_data b).map Value.blobs

/-- Remote answer for a packaged query: dispatches to the per-kind
`RpcProvider` response function. -/
def RpcProvider.answer (rpc : RpcProvider) : Query → Except Err Value
  | .fullBlock q => (rpc.full_block q).map Value.block
  | .partialBlock q => (rpc.partial_block q).map Value.header
  | .blockReceipts q => (rpc.block_receipts q).map Value.receiptList
  | .proof q => (rpc.proof q).map Value.proofResponse
  | .transactionCount q => (rpc.transaction_count q).map Value.count
  | .balance q => (rpc.balance q).map Value.amount
  | .code q => (rpc.code q).map Value.bytes
  | .storage q => (rpc.storage q).map Value.word
  | .logs q => (rpc.log_list q).map Value.logList
  | .blob b => (rpc.blob_data b).map Value.blobs

/-- Cache insertion for a packaged query/value pair of matching kind;
a kind mismatch (which never arises from a remote answer) is a no-op. -/
def CachedRpcProvider.insertQ (p : CachedRpcProvider) : Query → Value → CachedRpcProvider
  | .fullBlock q, .block b => { p with cache := p.cache.insert_full_block q b }
  | .partialBlock q, .header h => { p with cache := p.cache.insert_partial_block q h }
  | .blockReceipts q, .receiptList r => { p with cache := p.cache.insert_block_receipts q r }
  | .proof q, .proofResponse r => { p with cache := p.cache.insert_proof q r }
  | .transactionCount q, .count n => { p with cache := p.cache.insert_transaction_count q n }
  | .balance q, .amount n => { p with cache := p.cache.insert_balance q n }
  | .code q, .bytes b => { p with cache := p.cache.insert_code q b }
  | .storage q, .word w => { p with cache := p.cache.insert_storage q w }
  | .logs q, .logList l => { p with cache := p.cache.insert_logs q l }
  | .blob b, .blobs r => { p with cache := p.cache.insert_blob b r }
  | _, _ => p

/-- The uniform getter surface, packaged: dispatches to the per-kind
source-translated operation and injects its result into `Value`. -/
def CachedRpcProvider.getQuery (p : CachedRpcProvider) : Query → Except Err Value × CachedRpcProvider × Nat
  | .fullBlock q =>
      let r := p.get_full_block q
      (r.1.map Value.block, r.2.1, r.2.2)
  | .partialBlock q =>
      let r := p.get_partial_block q
      (r.1.map Value.header, r.2.1, r.2.2)
  | .blockReceipts q =>
      let r := p.get_block_receipts q
      (r.1.map Value.receiptList, r.2.1, r.2.2)
  | .proof q =>
      let r := p.get_proof q
      (r.1.map Value.proofResponse, r.2.1, r.2.2)
  | .transactionCount q =>
      let r := p.get_transaction_count q
      (r.1.map Value.count, r.2.1, r.2.2)
  | .balance q =>
      let r := p.get_balance q
      (r.1.map Value.amount, r.2.1, r.2.2)
  | .code q =>
      let r := p.get_code q
      (r.1.map Value.bytes, r.2.1, r.2.2)
  | .storage q =>
      let r := p.get_storage q
      (r.1.map Value.word, r.2.1, r.2.2)
  | .logs q =>
      let r := p.get_logs q
      (r.1.map Value.logList, r.2.1, r.2.2)
  | .blob b =>
      let r := p.get_blob_data b
      (r.1.map Value.blobs, r.2.1, r.2.2)

/-- Modelled from the spec: durable storage, a list of (path, snapshot)
records, most recent first. -/
def Disk := List (String × FileProvider)

/-- Modelled from the spec: `FileProvider::save` flushes the entire in-memory
cache to durable storage at the configured location. -/
def FileProvider.save (c : FileProvider) (d : Disk) : Disk :=
  (c.file_path, c) :: d

/-- `save` (lines 49–51): delegates to the cache's save. -/
def CachedRpcProvider.save (p : CachedRpcProvider) (d : Disk) : Except Err Unit × Disk :=
  (.ok (), p.cache.save d)

/-- The operations a caller can perform on the composed provider. -/
inductive Action where
  | query (q : Query)
  | transactionFetch (tq : TxQuery)
  | persist
deriving DecidableEq

/-- One caller-visible step over (provider, disk): uniform getters and
`get_transaction` touch only the in-memory provider; `save` touches only the
disk. -/
def applyAction (p : CachedRpcProvider) (d : Disk) : Action → CachedRpcProvider × Disk
  | .query q => ((p.getQuery q).2.1, d)
  | .transactionFetch tq => ((p.get_transaction tq).2.1, d)
  | .persist => (p, (p.save d).2)

/-! Concrete fixtures used by the witness theorems. -/

/-- A transaction with hash 9. -/
def txA : Transaction := ⟨9, 100⟩

/-- A second, distinct transaction with the same hash 9. -/
def txB : Transaction := ⟨9, 200⟩

/-- A transaction with hash 5. -/
def txC : Transaction := ⟨5, 300⟩

/-- A block whose transaction list holds two transactions of hash 9. -/
def demoBlock : Block := ⟨[txC, txA, txB]⟩

/-- A remote source that answers every query successfully. -/
def demoRpc : RpcProvider where
  full_block := fun _ => .ok demoBlock
  partial_block := fun _ => .ok 1
  block_receipts := fun _ => .ok [2]
  proof := fun _ => .ok 3
  transaction_count := fun _ => .ok 4
  balance := fun _ => .ok 5
  code := fun _ => .ok [6]
  storage := fun _ => .ok 7
  log_list := fun _ => .ok [8]
  transaction := fun _ => .ok txC
  blob_data := fun _ => .ok 9

/-- A remote source that fails every query with "unreachable". -/
def failRpc : RpcProvider where
  full_block := fun _ => .error "unreachable"
  partial_block := fun _ => .error "unreachable"
  block_receipts := fun _ => .error "unreachable"
  proof := fun _ => .error "unreachable"
  transaction_count := fun _ => .error "unreachable"
  balance := fun _ => .error "unreachable"
  code := fun _ => .error "unreachable"
  storage := fun _ => .error "unreachable"
  log_list := fun _ => .error "unreachable"
  transaction := fun _ => .error "unreachable"
  blob_data := fun _ => .error "unreachable"

/-- Fresh provider: empty cache at "cache.json", all-success remote. -/
def demoProvider : CachedRpcProvider := ⟨FileProvider.empty "cache.json", demoRpc⟩

/-- Provider whose cache already holds `demoBlock` under block number 7. -/
def blockCachedProvider : CachedRpcProvider :=
  ⟨{ FileProvider.empty "cache.json" with full_blocks := [(⟨7⟩, .ok demoBlock)] }, demoRpc⟩

/-- Provider with empty cache and failing remote. -/
def failProvider : CachedRpcProvider := ⟨FileProvider.empty "cache.json", failRpc⟩

/-! Helper lemmas. -/

theorem Table.get_insert_self {K V : Type} [DecidableEq K] (t : Table K V) (k : K) (v : V) :
    (t.insert k v).get k = .ok v := by
  simp [Table.insert, Table.get]

theorem Table.get_insert_of_ne {K V : Type} [DecidableEq K] (t : Table K V) (k k' : K) (v : V)
    (h : k ≠ k') : (t.insert k v).get k' = t.get k' := by
  simp [Table.insert, Table.get, h]

theorem Table.get_insert_of_ok {K V : Type} [DecidableEq K] {t : Table K V} {k k' : K}
    {v : V} {e : Err} (w : V) (hok : t.get k = .ok v) (hmiss : t.get k' = .error e) :
    (t.insert k' w).get k = .ok v := by
  have hne : k' ≠ k := by
    intro hkk
    subst hkk
    rw [hok] at hmiss
    exact Except.noConfusion hmiss
  rw [Table.get_insert_of_ne _ _ _ _ hne, hok]

theorem map_ok_elim {α β : Type} {f : α → β} {x : Except Err α} {v : β}
    (h : x.map f = .ok v) : ∃ a, x = .ok a ∧ f a = v := by
  cases x with
  | error e => simp [Except.map] at h
  | ok a => exact ⟨a, rfl, by simpa [Except.map] using h⟩

theorem map_error_elim {α β : Type} {f : α → β} {x : Except Err α} {e : Err}
    (h : x.map f = .error e) : x = .error e := by
  cases x <;> simp_all [Except.map]

theorem FileProvider.lookupQ_empty (path : String) (q : Query) :
    (FileProvider.empty path).lookupQ q = .error "not found" := by
  cases q <;> rfl

/-- The ten uniform getters share one control flow: return a cache hit with no
remote fetch; otherwise answer, state and fetch count are determined by the
remote answer alone. -/
theorem CachedRpcProvider.getQuery_eq (p : CachedRpcProvider) (q : Query) :
    p.getQuery q =
      match p.cache.lookupQ q with
      | .ok v => (.ok v, p, 0)
      | .error _ =>
          match p.rpc.answer q with
          | .error e => (.error e, p, 1)
          | .ok v => (.ok v, p.insertQ q v, 1) := by
  cases q <;>
    simp only [CachedRpcProvider.getQuery, FileProvider.lookupQ, RpcProvider.answer,
      CachedRpcProvider.get_full_block, CachedRpcProvider.get_partial_block,
      CachedRpcProvider.get_block_receipts, CachedRpcProvider.get_proof,
      CachedRpcProvider.get_transaction_count, CachedRpcProvider.get_balance,
      CachedRpcProvider.get_code, CachedRpcProvider.get_storage,
      CachedRpcProvider.get_logs, CachedRpcProvider.get_blob_data] <;>
    (repeat' split) <;>
    simp_all [Except.map] <;>
    subst_vars <;>
    simp [CachedRpcProvider.insertQ]

theorem findTx_none_iff (l : List Transaction) (h : Nat) :
    findTx l h = none ↔ ∀ tx ∈ l, tx.hash ≠ h := by
  induction l with
  | nil => simp [findTx]
  | cons x xs ih =>
      by_cases hx : x.hash = h
      · simp [findTx, hx]
      · simp [findTx, hx, ih]

theorem findTx_mem {l : List Transaction} {h : Nat} {t : Transaction}
    (hf : findTx l h = some t) : t ∈ l ∧ t.hash = h := by
  induction l with
  | nil => simp [findTx] at hf
  | cons x xs ih =>
      by_cases hx : x.hash = h
      · simp only [findTx, if_pos hx, Option.some.injEq] at hf
        subst hf
        exact ⟨List.mem_cons_self x xs, hx⟩
      · simp only [findTx, if_neg hx] at hf
        obtain ⟨hm, hh⟩ := ih hf
        exact ⟨List.mem_cons_of_mem x hm, hh⟩

theorem findTx_first {l1 l2 : List Transaction} {t : Transaction} {h : Nat}
    (h1 : ∀ x ∈ l1, x.hash ≠ h) (h2 : t.hash = h) :
    findTx (l1 ++ t :: l2) h = some t := by
  induction l1 with
  | nil => simp [findTx, h2]
  | cons x xs ih =>
      have hx : x.hash ≠ h := h1 x (List.mem_cons_self x xs)
      simp only [List.cons_append, findTx, if_neg hx]
      exact ih (fun y hy => h1 y (List.mem_cons_of_mem x hy))

theorem CachedRpcProvider.get_transaction_insertQ (p : CachedRpcProvider) (q : Query)
    (v : Value) (tq : TxQuery) :
    (p.insertQ q v).cache.get_transaction tq = p.cache.get_transaction tq := by
  cases q <;> cases v <;> rfl

theorem FileProvider.lookupQ_insert_transaction (c : FileProvider) (tq : TxQuery)
    (t : Transaction) (q : Query) :
    (c.insert_transaction tq t).lookupQ q = c.lookupQ q := by
  cases q <;> rfl

/-- A `lookupQ`-visible entry survives any insertion made for a key whose own
lookup had just failed. -/
theorem CachedRpcProvider.lookupQ_insertQ_of_ok (p : CachedRpcProvider) (q' : Query) (v' : Value)
    {q : Query} {v : Value} {e : Err}
    (hok : p.cache.lookupQ q = .ok v) (hmiss : p.cache.lookupQ q' = .error e) :
    (p.insertQ q' v').cache.lookupQ q = .ok v := by
  cases q' <;> cases v' <;> (try exact hok) <;> cases q <;> (try exact hok) <;>
    (simp only [FileProvider.lookupQ, CachedRpcProvider.insertQ,
        FileProvider.get_full_block, FileProvider.get_partial_block,
        FileProvider.get_block_receipts, FileProvider.get_proof,
        FileProvider.get_transaction_count, FileProvider.get_balance,
        FileProvider.get_code, FileProvider.get_storage, FileProvider.get_logs,
        FileProvider.get_blob_data, FileProvider.insert_full_block,
        FileProvider.insert_partial_block, FileProvider.insert_block_receipts,
        FileProvider.insert_proof, FileProvider.insert_transaction_count,
        FileProvider.insert_balance, FileProvider.insert_code,
        FileProvider.insert_storage, FileProvider.insert_logs,
        FileProvider.insert_blob] at hok hmiss ⊢;
     obtain ⟨b, hb, hv⟩ := map_ok_elim hok;
     rw [Table.get_insert_of_ok _ hb (map_error_elim hmiss)];
     simp [Except.map, hv])

/-- After `get_transaction`, the provider is unchanged, or exactly one new
transaction entry was inserted for the queried key, whose own lookup had just
failed. -/
theorem CachedRpcProvider.get_transaction_state (p : CachedRpcProvider) (tq : TxQuery) :
    (p.get_transaction tq).2.1 = p ∨
    ∃ t e, p.cache.get_transaction tq = .error e ∧ p.rpc.transaction tq = .ok t ∧
      (p.get_transaction tq).2.1 = { p with cache := p.cache.insert_transaction tq t } := by
  cases hc : p.cache.get_transaction tq with
  | ok v => exact Or.inl (by simp [CachedRpcProvider.get_transaction, hc])
  | error e =>
      cases hb : tq.block_no with
      | none =>
          cases hr : p.rpc.transaction tq with
          | error e2 =>
              exact Or.inl (by
                simp [CachedRpcProvider.get_transaction,
                  CachedRpcProvider.remote_transaction, hc, hb, hr])
          | ok t =>
              exact Or.inr ⟨t, e, rfl, rfl, by
                simp [CachedRpcProvider.get_transaction,
                  CachedRpcProvider.remote_transaction, hc, hb, hr]⟩
      | some n =>
          cases hblk : p.cache.get_full_block ⟨n⟩ with
          | ok b =>
              cases hf : findTx b.transactions tq.tx_hash with
              | some tx =>
                  exact Or.inl (by
                    simp [CachedRpcProvider.get_transaction, hc, hb, hblk, hf])
              | none =>
                  cases hr : p.rpc.transaction tq with
                  | error e2 =>
                      exact Or.inl (by
                        simp [CachedRpcProvider.get_transaction,
                          CachedRpcProvider.remote_transaction, hc, hb, hblk, hf, hr])
                  | ok t =>
                      exact Or.inr ⟨t, e, rfl, rfl, by
                        simp [CachedRpcProvider.get_transaction,
                          CachedRpcProvider.remote_transaction, hc, hb, hblk, hf, hr]⟩
          | error e3 =>
              cases hr : p.rpc.transaction tq with
              | error e2 =>
                  exact Or.inl (by
                    simp [CachedRpcProvider.get_transaction,
                      CachedRpcProvider.remote_transaction, hc, hb, hblk, hr])
              | ok t =>
                  exact Or.inr ⟨t, e, rfl, rfl, by
                    simp [CachedRpcProvider.get_transaction,
                      CachedRpcProvider.remote_transaction, hc, hb, hblk, hr]⟩

theorem FileProvider.get_transaction_insert_of_ok {c : FileProvider} {tq tq' : TxQuery}
    {t : Transaction} {e : Err} (w : Transaction)
    (hok : c.get_transaction tq = .ok t) (hmiss : c.get_transaction tq' = .error e) :
    (c.insert_transaction tq' w).get_transaction tq = .ok t :=
  Table.get_insert_of_ok w hok hmiss

/-- Inserting the value a remote answer produced for a query makes that
query's lookup hit. -/
theorem CachedRpcProvider.lookupQ_insertQ_self (p : CachedRpcProvider) (rpc : RpcProvider)
    {q : Query} {v : Value} (h : rpc.answer q = .ok v) :
    (p.insertQ q v).cache.lookupQ q = .ok v := by
  cases q <;>
    (simp only [RpcProvider.answer] at h;
     obtain ⟨b, hb, hv⟩ := map_ok_elim h;
     subst hv;
     simp [CachedRpcProvider.insertQ, FileProvider.lookupQ,
       FileProvider.get_full_block, FileProvider.get_partial_block,
       FileProvider.get_block_receipts, FileProvider.get_proof,
       FileProvider.get_transaction_count, FileProvider.get_balance,
       FileProvider.get_code, FileProvider.get_storage, FileProvider.get_logs,
       FileProvider.get_blob_data, FileProvider.insert_full_block,
       FileProvider.insert_partial_block, FileProvider.insert_block_receipts,
       FileProvider.insert_proof, FileProvider.insert_transaction_count,
       FileProvider.insert_balance, FileProvider.insert_code,
       FileProvider.insert_storage, FileProvider.insert_logs,
       FileProvider.insert_blob, Table.get_insert_self, Except.map])

/-! Claim theorems. -/

/-- C1: for every uniform query kind, a first call on an empty cache performs
exactly one remote fetch, inserts the fetched value under the query key, and
returns it; a second call with the same query on the populated cache returns
the same value with zero remote fetches and leaves the state unchanged. -/
theorem uniform_first_fetch_then_cache_hit (path : String) (rpc : RpcProvider)
    (q : Query) (v : Value) (h : rpc.answer q = .ok v) :
    CachedRpcProvider.getQuery ⟨FileProvider.empty path, rpc⟩ q =
      (.ok v, CachedRpcProvider.insertQ ⟨FileProvider.empty path, rpc⟩ q v, 1) ∧
    (CachedRpcProvider.insertQ ⟨FileProvider.empty path, rpc⟩ q v).cache.lookupQ q = .ok v ∧
    CachedRpcProvider.getQuery (CachedRpcProvider.insertQ ⟨FileProvider.empty path, rpc⟩ q v) q =
      (.ok v, CachedRpcProvider.insertQ ⟨FileProvider.empty path, rpc⟩ q v, 0) := by
  have hempty := FileProvider.lookupQ_empty path q
  have hins :=
    CachedRpcProvider.lookupQ_insertQ_self ⟨FileProvider.empty path, rpc⟩ rpc h
  refine ⟨?_, hins, ?_⟩
  · simp [CachedRpcProvider.getQuery_eq, hempty, h]
  · simp [CachedRpcProvider.getQuery_eq, hins]

/-- C1 witness at the blob-data kind on a concrete provider. -/
theorem uniform_first_fetch_then_cache_hit_witness :
    demoRpc.answer (Query.blob 3) = .ok (Value.blobs 9) ∧
    (demoProvider.getQuery (Query.blob 3) =
        (.ok (Value.blobs 9), demoProvider.insertQ (Query.blob 3) (Value.blobs 9), 1) ∧
      (demoProvider.insertQ (Query.blob 3) (Value.blobs 9)).cache.lookupQ (Query.blob 3) =
        .ok (Value.blobs 9) ∧
      (demoProvider.insertQ (Query.blob 3) (Value.blobs 9)).getQuery (Query.blob 3) =
        (.ok (Value.blobs 9), demoProvider.insertQ (Query.blob 3) (Value.blobs 9), 0)) :=
  ⟨rfl, uniform_first_fetch_then_cache_hit "cache.json" demoRpc (Query.blob 3) (Value.blobs 9) rfl⟩

/-- C2 counterexample: with an empty cache, a remote source that does serve
block 7 (whose transaction list contains the queried hash 9), `get_transaction`
on (hash 9, block 7) neither fetches the block remotely nor populates the
block cache entry — afterwards the full-block cache lookup for block 7 still
fails, and the returned transaction is the direct remote one (`txC`), not a
transaction of the block. -/
theorem tx_block_lookup_counterexample :
    demoProvider.rpc.full_block ⟨7⟩ = .ok demoBlock ∧
    txA ∈ demoBlock.transactions ∧ txA.hash = 9 ∧
    ((demoProvider.get_transaction ⟨9, some 7⟩).2.1).cache.get_full_block ⟨7⟩ =
      .error "not found" ∧
    (demoProvider.get_transaction ⟨9, some 7⟩).1 = .ok txC := by
  refine ⟨rfl, by decide, rfl, ?_, ?_⟩ <;> rfl

/-- C2 (amended): in `get_transaction`, when the direct lookup misses and the
query carries a block number, the block is looked up in the cache only; a
cache miss on the block does not trigger a remote block fetch and does not
populate the block cache entry — the operation behaves exactly as the direct
remote transaction fetch. -/
theorem tx_block_lookup_cache_only (p : CachedRpcProvider) (tq : TxQuery)
    (e eb : Err) (n : Nat)
    (h1 : p.cache.get_transaction tq = .error e)
    (h2 : tq.block_no = some n)
    (h3 : p.cache.get_full_block ⟨n⟩ = .error eb) :
    p.get_transaction tq = p.remote_transaction tq ∧
    ((p.get_transaction tq).2.1).cache.get_full_block ⟨n⟩ = .error eb := by
  have hmain : p.get_transaction tq = p.remote_transaction tq := by
    simp [CachedRpcProvider.get_transaction, h1, h2, h3]
  refine ⟨hmain, ?_⟩
  rw [hmain]
  unfold CachedRpcProvider.remote_transaction
  cases hr : p.rpc.transaction tq with
  | error e2 => exact h3
  | ok t => exact h3

/-- C2 (amended) witness on a concrete provider with an empty cache. -/
theorem tx_block_lookup_cache_only_witness :
    demoProvider.cache.get_transaction ⟨9, some 7⟩ = .error "not found" ∧
    demoProvider.cache.get_full_block ⟨7⟩ = .error "not found" ∧
    (demoProvider.get_transaction ⟨9, some 7⟩ = demoProvider.remote_transaction ⟨9, some 7⟩ ∧
      ((demoProvider.get_transaction ⟨9, some 7⟩).2.1).cache.get_full_block ⟨7⟩ =
        .error "not found") :=
  ⟨rfl, rfl,
    tx_block_lookup_cache_only demoProvider ⟨9, some 7⟩ "not found" "not found" 7 rfl rfl rfl⟩

/-- C3: for every uniform query kind, a remote failure on a cache miss is
returned unchanged, with exactly one remote attempt and an unmodified state;
an identical second call again looks up the cache and performs the remote
fetch once more. -/
theorem remote_error_propagated (p : CachedRpcProvider) (q : Query)
    (e er : Err) (hc : p.cache.lookupQ q = .error e) (hr : p.rpc.answer q = .error er) :
    p.getQuery q = (.error er, p, 1) ∧
    ((p.getQuery q).2.1).getQuery q = (.error er, p, 1) := by
  have h1 : p.getQuery q = (.error er, p, 1) := by
    simp [CachedRpcProvider.getQuery_eq, hc, hr]
  refine ⟨h1, ?_⟩
  rw [h1]
  simp [CachedRpcProvider.getQuery_eq, hc, hr]

/-- C3 witness at the full-block kind with a failing remote. -/
theorem remote_error_propagated_witness :
    failProvider.cache.lookupQ (.fullBlock ⟨7⟩) = .error "not found" ∧
    failRpc.answer (.fullBlock ⟨7⟩) = .error "unreachable" ∧
    (failProvider.getQuery (.fullBlock ⟨7⟩) = (.error "unreachable", failProvider, 1) ∧
      ((failProvider.getQuery (.fullBlock ⟨7⟩)).2.1).getQuery (.fullBlock ⟨7⟩) =
        (.error "unreachable", failProvider, 1)) :=
  ⟨rfl, rfl,
    remote_error_propagated failProvider (.fullBlock ⟨7⟩) "not found" "unreachable" rfl rfl⟩

/-- C4: for every uniform query kind, a successful cache lookup returns the
cached value with no remote fetch, and any error from the cache lookup —
whatever the error value — leads to the same behavior, fully determined by
the remote answer (one remote fetch, the cache error never surfaced). -/
theorem cache_error_uniform_fallback (p : CachedRpcProvider) (q : Query) :
    (∀ v, p.cache.lookupQ q = .ok v → p.getQuery q = (.ok v, p, 0)) ∧
    (∀ e, p.cache.lookupQ q = .error e →
      p.getQuery q =
        (match p.rpc.answer q with
         | .error er => (.error er, p, 1)
         | .ok v => (.ok v, p.insertQ q v, 1))) := by
  constructor
  · intro v hv
    simp [CachedRpcProvider.getQuery_eq, hv]
  · intro e he
    simp [CachedRpcProvider.getQuery_eq, he]

/-- C4 witness: a hit on a populated cache and a fallback on an empty one. -/
theorem cache_error_uniform_fallback_witness :
    blockCachedProvider.cache.lookupQ (.fullBlock ⟨7⟩) = .ok (.block demoBlock) ∧
    blockCachedProvider.getQuery (.fullBlock ⟨7⟩) =
      (.ok (.block demoBlock), blockCachedProvider, 0) ∧
    demoProvider.cache.lookupQ (.fullBlock ⟨7⟩) = .error "not found" ∧
    demoProvider.getQuery (.fullBlock ⟨7⟩) =
      (match demoProvider.rpc.answer (.fullBlock ⟨7⟩) with
       | .error er => (.error er, demoProvider, 1)
       | .ok v => (.ok v, demoProvider.insertQ (.fullBlock ⟨7⟩) v, 1)) :=
  ⟨rfl, (cache_error_uniform_fallback blockCachedProvider (.fullBlock ⟨7⟩)).1
      (.block demoBlock) rfl,
    rfl, (cache_error_uniform_fallback demoProvider (.fullBlock ⟨7⟩)).2 "not found" rfl⟩

/-- C5: on a transaction-key cache miss, if the queried block is in the cache
and its transaction list contains the queried hash, a matching transaction of
that list is returned with zero remote fetches and a fully unchanged provider
(in particular no insertion under the transaction key). -/
theorem tx_found_in_cached_block (p : CachedRpcProvider) (tq : TxQuery)
    (e : Err) (n : Nat) (b : Block)
    (h1 : p.cache.get_transaction tq = .error e)
    (h2 : tq.block_no = some n)
    (h3 : p.cache.get_full_block ⟨n⟩ = .ok b)
    (h4 : ∃ tx ∈ b.transactions, tx.hash = tq.tx_hash) :
    ∃ t, t ∈ b.transactions ∧ t.hash = tq.tx_hash ∧
      p.get_transaction tq = (.ok t, p, 0) := by
  cases hf : findTx b.transactions tq.tx_hash with
  | none =>
      rw [findTx_none_iff] at hf
      obtain ⟨tx, htx, hh⟩ := h4
      exact absurd hh (hf tx htx)
  | some t =>
      obtain ⟨hm, hh⟩ := findTx_mem hf
      exact ⟨t, hm, hh, by simp [CachedRpcProvider.get_transaction, h1, h2, h3, hf]⟩

/-- C5 witness: hash 9 is served from the cached block with no state change. -/
theorem tx_found_in_cached_block_witness :
    blockCachedProvider.cache.get_transaction ⟨9, some 7⟩ = .error "not found" ∧
    blockCachedProvider.cache.get_full_block ⟨7⟩ = .ok demoBlock ∧
    (∃ tx ∈ demoBlock.transactions, tx.hash = (9:Nat)) ∧
    (∃ t, t ∈ demoBlock.transactions ∧ t.hash = (9:Nat) ∧
      blockCachedProvider.get_transaction ⟨9, some 7⟩ = (.ok t, blockCachedProvider, 0)) :=
  ⟨rfl, rfl, ⟨txA, by decide, rfl⟩,
    tx_found_in_cached_block blockCachedProvider ⟨9, some 7⟩ "not found" 7 demoBlock
      rfl rfl rfl ⟨txA, by decide, rfl⟩⟩

/-- C6: on a transaction-key cache miss, when no block number was supplied, or
the cached block lookup fails, or the queried hash is in no transaction of the
cached block, exactly one direct remote transaction fetch happens; on its
success the result is inserted under the transaction key and returned. -/
theorem tx_direct_remote_fallback (p : CachedRpcProvider) (tq : TxQuery) (e : Err)
    (h1 : p.cache.get_transaction tq = .error e)
    (h2 : tq.block_no = none
        ∨ (∃ n eb, tq.block_no = some n ∧ p.cache.get_full_block ⟨n⟩ = .error eb)
        ∨ (∃ n b, tq.block_no = some n ∧ p.cache.get_full_block ⟨n⟩ = .ok b ∧
            ∀ tx ∈ b.transactions, tx.hash ≠ tq.tx_hash)) :
    p.get_transaction tq = p.remote_transaction tq ∧
    (p.get_transaction tq).2.2 = 1 ∧
    (∀ t, p.rpc.transaction tq = .ok t →
      p.get_transaction tq =
        (.ok t, { p with cache := p.cache.insert_transaction tq t }, 1)) := by
  have hmain : p.get_transaction tq = p.remote_transaction tq := by
    rcases h2 with hnone | ⟨n, eb, hn, hb⟩ | ⟨n, b, hn, hb, hno⟩
    · simp [CachedRpcProvider.get_transaction, h1, hnone]
    · simp [CachedRpcProvider.get_transaction, h1, hn, hb]
    · have hf : findTx b.transactions tq.tx_hash = none := (findTx_none_iff _ _).2 hno
      simp [CachedRpcProvider.get_transaction, h1, hn, hb, hf]
  refine ⟨hmain, ?_, ?_⟩
  · rw [hmain]
    unfold CachedRpcProvider.remote_transaction
    cases p.rpc.transaction tq <;> rfl
  · intro t ht
    rw [hmain]
    simp [CachedRpcProvider.remote_transaction, ht]

/-- C6 witness: hash 4 is in no transaction of the cached block, so one
direct remote fetch happens and its result is cached under the transaction
key. -/
theorem tx_direct_remote_fallback_witness :
    blockCachedProvider.cache.get_transaction ⟨4, some 7⟩ = .error "not found" ∧
    blockCachedProvider.cache.get_full_block ⟨7⟩ = .ok demoBlock ∧
    (∀ tx ∈ demoBlock.transactions, tx.hash ≠ (4:Nat)) ∧
    (blockCachedProvider.get_transaction ⟨4, some 7⟩ =
        blockCachedProvider.remote_transaction ⟨4, some 7⟩ ∧
      (blockCachedProvider.get_transaction ⟨4, some 7⟩).2.2 = 1 ∧
      (∀ t, blockCachedProvider.rpc.transaction ⟨4, some 7⟩ = .ok t →
        blockCachedProvider.get_transaction ⟨4, some 7⟩ =
          (.ok t, { blockCachedProvider with
            cache := blockCachedProvider.cache.insert_transaction ⟨4, some 7⟩ t }, 1))) :=
  ⟨rfl, rfl, by decide,
    tx_direct_remote_fallback blockCachedProvider ⟨4, some 7⟩ "not found" rfl
      (Or.inr (Or.inr ⟨7, demoBlock, rfl, rfl, by decide⟩))⟩

/-- C7: construction never fails because of the cache — a failed cache load
falls back to the empty cache at the given path — and fails exactly when the
remote source's construction fails, propagating that error unchanged. -/
theorem construction_error_policy (load_out : Except Err FileProvider) (cache_path : String)
    (rpc_out : Except Err RpcProvider) :
    (∀ e, rpc_out = .error e → CachedRpcProvider.new load_out cache_path rpc_out = .error e) ∧
    (∀ rpc, rpc_out = .ok rpc →
      (∀ e0, load_out = .error e0 →
        CachedRpcProvider.new load_out cache_path rpc_out =
          .ok ⟨FileProvider.empty cache_path, rpc⟩) ∧
      (∀ c0, load_out = .ok c0 →
        CachedRpcProvider.new load_out cache_path rpc_out = .ok ⟨c0, rpc⟩)) := by
  refine ⟨fun e he => ?_, fun rpc hr => ⟨fun e0 h0 => ?_, fun c0 h0 => ?_⟩⟩
  · simp [CachedRpcProvider.new, he]
  · simp [CachedRpcProvider.new, hr, h0]
  · simp [CachedRpcProvider.new, hr, h0]

/-- C7 witness: a failed load with a failed and with a successful remote
construction. -/
theorem construction_error_policy_witness :
    CachedRpcProvider.new (.error "corrupt json") "c" (.error "bad url") = .error "bad url" ∧
    CachedRpcProvider.new (.error "corrupt json") "c" (.ok demoRpc) =
      .ok ⟨FileProvider.empty "c", demoRpc⟩ :=
  ⟨(construction_error_policy (.error "corrupt json") "c" (.error "bad url")).1 "bad url" rfl,
    ((construction_error_policy (.error "corrupt json") "c" (.ok demoRpc)).2 demoRpc rfl).1
      "corrupt json" rfl⟩

/-- C8: `save` flushes the entire in-memory cache to the disk at the
configured location, and it is the only operation that changes the disk —
every getter leaves durable storage untouched. -/
theorem save_only_durable_write (p : CachedRpcProvider) (d : Disk) :
    applyAction p d .persist = (p, (p.cache.file_path, p.cache) :: d) ∧
    (∀ a, a ≠ Action.persist → (applyAction p d a).2 = d) := by
  refine ⟨rfl, fun a ha => ?_⟩
  cases a with
  | query q => rfl
  | transactionFetch tq => rfl
  | persist => exact absurd rfl ha

/-- C8 witness: a save and a blob query on a concrete provider and empty
disk. -/
theorem save_only_durable_write_witness :
    applyAction demoProvider [] .persist =
      (demoProvider, [("cache.json", demoProvider.cache)]) ∧
    (applyAction demoProvider [] (.query (Query.blob 3))).2 = [] :=
  ⟨(save_only_durable_write demoProvider []).1,
    (save_only_durable_write demoProvider []).2 (.query (Query.blob 3)) (by simp)⟩

/-- C9: every operation of the component preserves every cache entry that
currently resolves successfully — for the ten uniform kinds and for the
transaction table alike — since an insert only ever happens for a key whose
lookup has just failed. -/
theorem cache_entries_persistent (p : CachedRpcProvider) (d : Disk) (a : Action) :
    (∀ q v, p.cache.lookupQ q = .ok v →
      ((applyAction p d a).1).cache.lookupQ q = .ok v) ∧
    (∀ tq t, p.cache.get_transaction tq = .ok t →
      ((applyAction p d a).1).cache.get_transaction tq = .ok t) := by
  cases a with
  | persist => exact ⟨fun q v h => h, fun tq t h => h⟩
  | query q2 =>
      constructor
      · intro q v hok
        show ((p.getQuery q2).2.1).cache.lookupQ q = .ok v
        rw [CachedRpcProvider.getQuery_eq]
        cases hl : p.cache.lookupQ q2 with
        | ok v2 => exact hok
        | error e =>
            cases ha : p.rpc.answer q2 with
            | error er => exact hok
            | ok v2 =>
                show (p.insertQ q2 v2).cache.lookupQ q = .ok v
                exact CachedRpcProvider.lookupQ_insertQ_of_ok p q2 v2 hok hl
      · intro tq t hok
        show ((p.getQuery q2).2.1).cache.get_transaction tq = .ok t
        rw [CachedRpcProvider.getQuery_eq]
        cases hl : p.cache.lookupQ q2 with
        | ok v2 => exact hok
        | error e =>
            cases ha : p.rpc.answer q2 with
            | error er => exact hok
            | ok v2 =>
                show (p.insertQ q2 v2).cache.get_transaction tq = .ok t
                rw [CachedRpcProvider.get_transaction_insertQ]
                exact hok
  | transactionFetch tq2 =>
      rcases CachedRpcProvider.get_transaction_state p tq2 with heq | ⟨t2, e2, hc2, _, heq⟩
      · refine ⟨fun q v hok => ?_, fun tq t hok => ?_⟩
        · show ((p.get_transaction tq2).2.1).cache.lookupQ q = .ok v
          rw [heq]; exact hok
        · show ((p.get_transaction tq2).2.1).cache.get_transaction tq = .ok t
          rw [heq]; exact hok
      · refine ⟨fun q v hok => ?_, fun tq t hok => ?_⟩
        · show ((p.get_transaction tq2).2.1).cache.lookupQ q = .ok v
          rw [heq]
          show (p.cache.insert_transaction tq2 t2).lookupQ q = .ok v
          rw [FileProvider.lookupQ_insert_transaction]
          exact hok
        · show ((p.get_transaction tq2).2.1).cache.get_transaction tq = .ok t
          rw [heq]
          exact FileProvider.get_transaction_insert_of_ok t2 hok hc2

/-- C9 witness: the cached full block for number 7 survives a transaction
fetch that inserts a new transaction entry. -/
theorem cache_entries_persistent_witness :
    blockCachedProvider.cache.lookupQ (.fullBlock ⟨7⟩) = .ok (.block demoBlock) ∧
    ((applyAction blockCachedProvider [] (.transactionFetch ⟨4, some 7⟩)).1).cache.lookupQ
      (.fullBlock ⟨7⟩) = .ok (.block demoBlock) :=
  ⟨rfl,
    (cache_entries_persistent blockCachedProvider [] (.transactionFetch ⟨4, some 7⟩)).1
      (.fullBlock ⟨7⟩) (.block demoBlock) rfl⟩

/-- C10: in the block-scan path of `get_transaction`, the first transaction
of the list whose hash equals the queried hash is the one returned, even when
later matches exist. -/
theorem tx_scan_first_match (p : CachedRpcProvider) (tq : TxQuery)
    (e : Err) (n : Nat) (b : Block) (l1 l2 : List Transaction) (t : Transaction)
    (h1 : p.cache.get_transaction tq = .error e)
    (h2 : tq.block_no = some n)
    (h3 : p.cache.get_full_block ⟨n⟩ = .ok b)
    (h4 : b.transactions = l1 ++ t :: l2)
    (h5 : ∀ x ∈ l1, x.hash ≠ tq.tx_hash)
    (h6 : t.hash = tq.tx_hash) :
    p.get_transaction tq = (.ok t, p, 0) := by
  have hf : findTx b.transactions tq.tx_hash = some t := by
    rw [h4]
    exact findTx_first h5 h6
  simp [CachedRpcProvider.get_transaction, h1, h2, h3, hf]

/-- C10 witness: the cached block holds two transactions of hash 9 (`txA`
before `txB`); the scan returns `txA`. -/
theorem tx_scan_first_match_witness :
    demoBlock.transactions = [txC] ++ txA :: [txB] ∧
    txA.hash = (9:Nat) ∧ txB.hash = (9:Nat) ∧ txA ≠ txB ∧
    blockCachedProvider.get_transaction ⟨9, some 7⟩ = (.ok txA, blockCachedProvider, 0) :=
  ⟨rfl, rfl, rfl, by decide,
    tx_scan_first_match blockCachedProvider ⟨9, some 7⟩ "not found" 7 demoBlock
      [txC] [txB] txA rfl rfl rfl rfl (by decide) rfl⟩

end Raiko
